import Mathlib

set_option maxRecDepth 100000
set_option maxHeartbeats 2000000

/-!
Verification development for the voucher-gated captive-portal repository.

The repository ships a browser-side sidebar toggle (static/assets/app.js)
and documents a router authentication API (README.md, spec). The server-side
validator itself is not among the source files, so its operations are
modelled from the spec; the sidebar script is embedded directly from
static/assets/app.js.
-/

namespace VoucherAuth

/-! ## SHA-256 (FIPS 180-4), bytes and 32-bit words represented as Nat -/

/-- Modulus for 32-bit words. -/
def w32 : Nat := 4294967296

/-- Addition modulo 2^32. -/
def add32 (a b : Nat) : Nat := (a + b) % w32

/-- Right rotation of a 32-bit word. -/
def rotr (n x : Nat) : Nat := ((x >>> n) ||| (x <<< (32 - n))) % w32

/-- Logical right shift. -/
def shr (n x : Nat) : Nat := x >>> n

/-- Choice function of the SHA-256 compression. -/
def ch (x y z : Nat) : Nat := (x &&& y) ^^^ ((x ^^^ 4294967295) &&& z)

/-- Majority function of the SHA-256 compression. -/
def maj (x y z : Nat) : Nat := ((x &&& y) ^^^ (x &&& z)) ^^^ (y &&& z)

/-- Big sigma-0 of SHA-256. -/
def bigSigma0 (x : Nat) : Nat := (rotr 2 x) ^^^ ((rotr 13 x) ^^^ (rotr 22 x))

/-- Big sigma-1 of SHA-256. -/
def bigSigma1 (x : Nat) : Nat := (rotr 6 x) ^^^ ((rotr 11 x) ^^^ (rotr 25 x))

/-- Small sigma-0 of SHA-256. -/
def smallSigma0 (x : Nat) : Nat := (rotr 7 x) ^^^ ((rotr 18 x) ^^^ (shr 3 x))

/-- Small sigma-1 of SHA-256. -/
def smallSigma1 (x : Nat) : Nat := (rotr 17 x) ^^^ ((rotr 19 x) ^^^ (shr 10 x))

/-- Round constants of SHA-256. -/
def K : List Nat :=
  [1116352408, 1899447441, 3049323471, 3921009573, 961987163, 1508970993,
   2453635748, 2870763221, 3624381080, 310598401, 607225278, 1426881987,
   1925078388, 2162078206, 2614888103, 3248222580, 3835390401, 4022224774,
   264347078, 604807628, 770255983, 1249150122, 1555081692, 1996064986,
   2554220882, 2821834349, 2952996808, 3210313671, 3336571891, 3584528711,
   113926993, 338241895, 666307205, 773529912, 1294757372, 1396182291,
   1695183700, 1986661051, 2177026350, 2456956037, 2730485921, 2820302411,
   3259730800, 3345764771, 3516065817, 3600352804, 4094571909, 275423344,
   430227734, 506948616, 659060556, 883997877, 958139571, 1322822218,
   1537002063, 1747873779, 1955562222, 2024104815, 2227730452, 2361852424,
   2428436474, 2756734187, 3204031479, 3329325298]

/-- Initial hash value of SHA-256. -/
def H0 : List Nat :=
  [1779033703, 3144134277, 1013904242, 2773480762,
   1359893119, 2600822924, 528734635, 1541459225]

/-- Big-endian byte encoding of a value into n bytes. -/
def beBytes (n v : Nat) : List Nat :=
  (List.range n).map (fun i => (v >>> (8 * (n - 1 - i))) % 256)

/-- Append SHA-256 padding: a 0x80 byte, zeros, and the 64-bit big-endian bit length. -/
def padMessage (msg : List Nat) : List Nat :=
  let L := msg.length
  let k := (120 - ((L + 1) % 64)) % 64
  msg ++ [128] ++ List.replicate k 0 ++ beBytes 8 (8 * L)

/-- Pack a byte list into big-endian 32-bit words, four bytes at a time. -/
def bytesToWords : List Nat → List Nat
  | a :: b :: c :: d :: rest =>
      (((a <<< 24) ||| (b <<< 16)) ||| ((c <<< 8) ||| d)) :: bytesToWords rest
  | _ => []

/-- Iterate a function n times. -/
def iterN (f : α → α) : Nat → α → α
  | 0, x => x
  | n + 1, x => iterN f n (f x)

/-- Extend a message schedule by one word from the last sixteen. -/
def expandStep (w : List Nat) : List Nat :=
  let n := w.length
  w ++ [add32 (add32 (smallSigma1 (w.getD (n - 2) 0)) (w.getD (n - 7) 0))
              (add32 (smallSigma0 (w.getD (n - 15) 0)) (w.getD (n - 16) 0))]

/-- Expand the sixteen block words into the 64-entry message schedule. -/
def expandSchedule (w : List Nat) : List Nat := iterN expandStep 48 w

/-- One round of the SHA-256 compression over the eight-word working state. -/
def compressRound (k w : Nat) (st : List Nat) : List Nat :=
  let a := st.getD 0 0
  let b := st.getD 1 0
  let c := st.getD 2 0
  let d := st.getD 3 0
  let e := st.getD 4 0
  let f := st.getD 5 0
  let g := st.getD 6 0
  let h := st.getD 7 0
  let t1 := add32 (add32 (add32 h (bigSigma1 e)) (add32 (ch e f g) k)) w
  let t2 := add32 (bigSigma0 a) (maj a b c)
  [add32 t1 t2, a, b, c, add32 d t1, e, f, g]

/-- Compress one sixteen-word block into the chaining value. -/
def processBlock (h ws16 : List Nat) : List Nat :=
  let w := expandSchedule ws16
  let final := (K.zip w).foldl (fun st p => compressRound p.1 p.2 st) h
  List.zipWith add32 h final

/-- Fold the compression over every sixteen-word block of the padded message. -/
def processWords (h : List Nat) : List Nat → List Nat
  | w0 :: w1 :: w2 :: w3 :: w4 :: w5 :: w6 :: w7 ::
    w8 :: w9 :: w10 :: w11 :: w12 :: w13 :: w14 :: w15 :: rest =>
      processWords
        (processBlock h [w0, w1, w2, w3, w4, w5, w6, w7, w8, w9, w10, w11, w12, w13, w14, w15])
        rest
  | _ => h

/-- SHA-256 digest of a byte list, as a list of 32 bytes. -/
def sha256 (msg : List Nat) : List Nat :=
  List.flatten ((processWords H0 (bytesToWords (padMessage msg))).map (beBytes 4))

/-- HMAC-SHA256 (RFC 2104) of a message under a key, as a list of 32 bytes. -/
def hmacSha256 (key msg : List Nat) : List Nat :=
  let k0 := if 64 < key.length then sha256 key else key
  let kpad := k0 ++ List.replicate (64 - k0.length) 0
  let ipad := kpad.map (fun b => b ^^^ 54)
  let opad := kpad.map (fun b => b ^^^ 92)
  sha256 (opad ++ sha256 (ipad ++ msg))

/-- Lowercase hexadecimal digit for a value below sixteen. -/
def hexDigit (n : Nat) : Char :=
  if n < 10 then Char.ofNat (48 + n) else Char.ofNat (87 + n)

/-- Lowercase hexadecimal rendering of a byte list. -/
def toHex (bs : List Nat) : String :=
  String.mk (List.flatten (bs.map (fun b => [hexDigit (b / 16), hexDigit (b % 16)])))

/-- Byte values of an ASCII string (code point of each character). -/
def strBytes (s : String) : List Nat := s.data.map (fun c => c.toNat)

/-! ## The Router Authentication Validator, modelled from the spec

The server code is not among the repository source files; everything below
follows the contract in spec sections 3, 4.1, 5, 6 and 7. -/

/-- Modelled from the spec: error kinds of spec section 7 (the validator code is
not in the source tree). -/
inductive ErrKind
  | UnknownRouter
  | BadSignature
  | StaleTimestamp
  | ReplayedNonce
  | InvalidVoucher
  | VoucherAlreadyConsumed
deriving DecidableEq

/-- Modelled from the spec: Accept/Reject decision with an internal reason code. -/
inductive Decision
  | Accept
  | Reject (reason : ErrKind)
deriving DecidableEq

/-- Modelled from the spec: an AuthRequest of spec section 3 — router identity,
client MAC, voucher code, integer epoch seconds, nonce and hex signature. -/
structure AuthRequest where
  router_id : String
  mac : String
  voucher : String
  ts : Int
  nonce : String
  sig : String
deriving DecidableEq

/-- Modelled from the spec: voucher consumption state — unused/used and the MAC
optionally bound after first use (spec section 3). -/
structure Voucher where
  used : Bool
  boundMac : Option String
deriving DecidableEq

/-- Modelled from the spec: validator state — the router secret store (read
only), the nonce/replay cache, the voucher store, the current server time and
the allowed clock skew (spec sections 3, 4.1 and 5). -/
structure ServerState where
  secrets : List (String × String)
  nonces : List (String × String)
  vouchers : List (String × Voucher)
  now : Int
  skew : Int
deriving DecidableEq

/-- Modelled from the spec: the pipe-joined signing string, fields taken
verbatim with no escaping (spec sections 4.1 and 6). -/
def canonicalString (r : AuthRequest) : String :=
  r.router_id ++ "|" ++ r.mac ++ "|" ++ r.voucher ++ "|" ++ toString r.ts ++ "|" ++ r.nonce

/-- Modelled from the spec: the expected signature — lowercase hex of
HMAC-SHA256 over the canonical string under the router secret (spec section 6). -/
def expectedSig (secret : String) (r : AuthRequest) : String :=
  toHex (hmacSha256 (strBytes secret) (strBytes (canonicalString r)))

/-- Modelled from the spec: explicit constant-time comparison primitive (spec
sections 4.1 and 9) — length check plus an accumulated bitwise or of
per-position xors, with no early exit and no use of the language equality
operator. -/
def ctEq (a b : List Char) : Bool :=
  (a.length == b.length) &&
    ((a.zip b).foldl (fun acc p => acc ||| (p.1.toNat ^^^ p.2.toNat)) 0 == 0)

/-- Modelled from the spec: cost model of ctEq — the number of positions it
touches, one per zipped pair plus the length check; there is no data-dependent
early exit. -/
def ctCost (a b : List Char) : Nat := 1 + (a.zip b).length

/-- Modelled from the spec: the signature gate — compares the supplied sig
against the recomputed expected signature with the constant-time primitive. -/
def sigOk (secret : String) (r : AuthRequest) : Bool :=
  ctEq r.sig.data (expectedSig secret r).data

/-- Modelled from the spec: the timestamp freshness window — ts within the
allowed clock skew of current server time (spec section 4.1). -/
def tsOk (s : ServerState) (r : AuthRequest) : Prop :=
  s.now - s.skew ≤ r.ts ∧ r.ts ≤ s.now + s.skew

instance (s : ServerState) (r : AuthRequest) : Decidable (tsOk s r) :=
  inferInstanceAs (Decidable (And _ _))

/-- Modelled from the spec: the Router Authentication Validator (spec section
4.1) — look up the router secret, check the signature in constant time, check
the timestamp window, check nonce freshness, then consult the voucher store;
on success commit the nonce insertion and the voucher consumption atomically
(spec section 5). -/
def validate (s : ServerState) (r : AuthRequest) : Decision × ServerState :=
  match s.secrets.lookup r.router_id with
  | none => (.Reject .UnknownRouter, s)
  | some secret =>
    if sigOk secret r then
      if tsOk s r then
        if (r.router_id, r.nonce) ∈ s.nonces then
          (.Reject .ReplayedNonce, s)
        else
          match s.vouchers.lookup r.voucher with
          | none => (.Reject .InvalidVoucher, s)
          | some v =>
            if v.used = false then
              (.Accept, { s with nonces := (r.router_id, r.nonce) :: s.nonces,
                                 vouchers := (r.voucher, ⟨true, some r.mac⟩) :: s.vouchers })
            else if v.boundMac = some r.mac then
              (.Accept, { s with nonces := (r.router_id, r.nonce) :: s.nonces })
            else
              (.Reject .VoucherAlreadyConsumed, s)
      else
        (.Reject .StaleTimestamp, s)
    else
      (.Reject .BadSignature, s)

/-- Modelled from the spec: the client-visible response — Accept, or a uniform
Reject that carries no reason (spec sections 4.1 and 7). -/
inductive ClientResponse
  | granted
  | denied
deriving DecidableEq

/-- Modelled from the spec: what goes on the wire — the reason of a Reject is
stripped (spec section 7). -/
def clientView : Decision → ClientResponse
  | .Accept => .granted
  | .Reject _ => .denied

/-- Modelled from the spec: what goes to the internal log — the specific
reason is retained (spec section 7). -/
def logView : Decision → Option ErrKind
  | .Accept => none
  | .Reject k => some k

/-- Modelled from the spec: process a list of requests one at a time,
threading the state (the step relation of the validator). -/
def execList (s : ServerState) : List AuthRequest → ServerState
  | [] => s
  | r :: rs => execList (validate s r).2 rs

/-! ## Concrete example data (spec sections 6 and 8) -/

/-- Example request of spec section 8, parameterized by the supplied signature
string: router R1, the example MAC, voucher AB12CD34, the example timestamp
and nonce. -/
def exampleFields (sigStr : String) : AuthRequest :=
  ⟨"R1", "aa:bb:cc:dd:ee:ff", "AB12CD34", 1730000000, "random-string", sigStr⟩

/-- Hex HMAC-SHA256 of the example canonical string under the secret s3cr3t,
as computed by the embedded hmacSha256. -/
def exampleDigest : String :=
  "2c5c27d07cd61bf449de8ef1b26c270157939d79af0b4375dbbd92fb457cad35"

/-- The example request with its mac field altered to aa:bb:cc:dd:ee:00 and
every other field kept. -/
def alteredFields (sigStr : String) : AuthRequest :=
  ⟨"R1", "aa:bb:cc:dd:ee:00", "AB12CD34", 1730000000, "random-string", sigStr⟩

/-- A second client racing on the same voucher: distinct MAC, distinct nonce,
same router, voucher and timestamp. -/
def racerFields (sigStr : String) : AuthRequest :=
  ⟨"R1", "11:22:33:44:55:66", "AB12CD34", 1730000000, "nonce-two", sigStr⟩

/-- The example client again with a fresh nonce and the same MAC and voucher. -/
def sameMacFields (sigStr : String) : AuthRequest :=
  ⟨"R1", "aa:bb:cc:dd:ee:ff", "AB12CD34", 1730000000, "nonce-two", sigStr⟩

/-- Example server state: router R1 with secret s3cr3t, an empty nonce cache,
one unused unbound voucher AB12CD34, server time 100 seconds past the example
timestamp and a five minute skew allowance. -/
def exampleState : ServerState :=
  ⟨[("R1", "s3cr3t")], [], [("AB12CD34", ⟨false, none⟩)], 1730000100, 300⟩

/-- Hex HMAC-SHA256 of the altered canonical string under the secret s3cr3t. -/
def alteredDigest : String :=
  "8b4cffc55ab82be04dd7c7340a0df674acf5955ee9930d93836e053472007e20"

/-- Hex HMAC-SHA256 of the racer canonical string under the secret s3cr3t. -/
def racerDigest : String :=
  "17c0bcc59a42268a25bb71bfa5ed9877621ae469527a750689b9a7566012d819"

/-- Hex HMAC-SHA256 of the same-MAC fresh-nonce canonical string under the
secret s3cr3t. -/
def sameMacDigest : String :=
  "4678b3f19f46a95f6a79853a6123453c6b3fcbc8306f064182e26718ae7363a2"

/-- Example server state whose clock has drifted past the skew allowance for
the example timestamp. -/
def staleState : ServerState :=
  ⟨[("R1", "s3cr3t")], [], [("AB12CD34", ⟨false, none⟩)], 1730000601, 300⟩

/-- Exactly one of the four signed request fields mac, voucher, ts, nonce is
altered; the router identity and the supplied signature are kept. -/
def alteredOneField (r rA : AuthRequest) : Prop :=
  rA.router_id = r.router_id ∧ rA.sig = r.sig ∧
  ((rA.mac ≠ r.mac ∧ rA.voucher = r.voucher ∧ rA.ts = r.ts ∧ rA.nonce = r.nonce) ∨
   (rA.mac = r.mac ∧ rA.voucher ≠ r.voucher ∧ rA.ts = r.ts ∧ rA.nonce = r.nonce) ∨
   (rA.mac = r.mac ∧ rA.voucher = r.voucher ∧ rA.ts ≠ r.ts ∧ rA.nonce = r.nonce) ∨
   (rA.mac = r.mac ∧ rA.voucher = r.voucher ∧ rA.ts = r.ts ∧ rA.nonce ≠ r.nonce))

end VoucherAuth

namespace Sidebar

/-! ## The sidebar toggle script, embedded from static/assets/app.js -/

/-- Membership test on a class list (classList.contains). -/
def containsClass (l : List String) (c : String) : Bool := l.contains c

/-- Embedded classList.add semantics: append the token when absent. -/
def addClass (l : List String) (c : String) : List String :=
  if l.contains c then l else l ++ [c]

/-- Embedded classList.remove semantics: drop every occurrence of the token. -/
def removeClass (l : List String) (c : String) : List String :=
  l.filter (fun x => x != c)

/-- Class lists of the three elements the script touches: the sidebar, the
overlay and the document body. -/
structure Dom where
  sidebar : List String
  overlay : List String
  body : List String
deriving DecidableEq

/-- Embedded from app.js lines 8-12: remove -translate-x-full from the
sidebar, remove hidden from the overlay, add overflow-hidden to the body. -/
def open_ (d : Dom) : Dom :=
  { sidebar := removeClass d.sidebar "-translate-x-full"
    overlay := removeClass d.overlay "hidden"
    body := addClass d.body "overflow-hidden" }

/-- Embedded from app.js lines 13-17: add -translate-x-full to the sidebar,
add hidden to the overlay, remove overflow-hidden from the body. -/
def close (d : Dom) : Dom :=
  { sidebar := addClass d.sidebar "-translate-x-full"
    overlay := addClass d.overlay "hidden"
    body := removeClass d.body "overflow-hidden" }

/-- Embedded from app.js lines 19-22: the toggle button handler — open when
the overlay is hidden, close otherwise. -/
def btnClick (d : Dom) : Dom :=
  if containsClass d.overlay "hidden" then open_ d else close d

/-- Embedded from app.js line 24: clicking the overlay closes the drawer. -/
def overlayClick (d : Dom) : Dom := close d

/-- Embedded from app.js lines 26-28: the document keydown handler — close on
the Escape key, otherwise do nothing. -/
def keydown (key : String) (d : Dom) : Dom :=
  if key == "Escape" then close d else d

/-- Embedded from app.js lines 30-34: clicking inside the sidebar — when the
target is inside an anchor and the mobile media query matches, close;
otherwise do nothing. -/
def sidebarClick (targetInAnchor mobile : Bool) (d : Dom) : Dom :=
  if targetInAnchor then (if mobile then close d else d) else d

/-- Listeners the script can register (app.js lines 19, 24, 26, 30). -/
inductive Listener
  | btnL
  | overlayL
  | docKeydown
  | sidebarL
deriving DecidableEq

/-- Embedded from app.js lines 2-6 and 19-34: the IIFE queries the three
elements and returns before registering anything when one is missing; it
never mutates any class list at setup time. The result is the document
state and the list of registered listeners. -/
def setup (btn overlay sidebar : Option Unit) (d : Dom) : Dom × List Listener :=
  if btn.isNone || overlay.isNone || sidebar.isNone then
    (d, [])
  else
    (d, [Listener.btnL, Listener.overlayL, Listener.docKeydown, Listener.sidebarL])

/-- The closed drawer state of the three tracked classes. -/
def closedState (d : Dom) : Prop :=
  containsClass d.sidebar "-translate-x-full" = true ∧
  containsClass d.overlay "hidden" = true ∧
  containsClass d.body "overflow-hidden" = false

/-- The open drawer state of the three tracked classes. -/
def openState (d : Dom) : Prop :=
  containsClass d.sidebar "-translate-x-full" = false ∧
  containsClass d.overlay "hidden" = false ∧
  containsClass d.body "overflow-hidden" = true

/-- Consistency invariant: the drawer is in the closed state or the open
state — overlay shown iff sidebar on-screen iff body scroll locked. -/
def consistent (d : Dom) : Prop := closedState d ∨ openState d

instance (d : Dom) : Decidable (closedState d) := inferInstanceAs (Decidable (And _ _))

instance (d : Dom) : Decidable (openState d) := inferInstanceAs (Decidable (And _ _))

instance (d : Dom) : Decidable (consistent d) := inferInstanceAs (Decidable (Or _ _))

end Sidebar

section ShaTests

open VoucherAuth

example : toHex (sha256 (strBytes "abc")) =
    "ba7816bf8f01cfea414140de5dae2223b00361a396177a9cb410ff61f20015ad" := by rfl

example : toHex (sha256 []) =
    "e3b0c44298fc1c149afbf4c8996fb92427ae41e4649b934ca495991b7852b855" := by rfl

end ShaTests


namespace VoucherAuth

/-! ## Correctness of the constant-time comparison -/

/-- Bitwise or of two naturals is zero exactly when both are zero. -/
theorem lor_eq_zero_iff (a b : Nat) : a ||| b = 0 ↔ a = 0 ∧ b = 0 := by
  constructor
  · intro h
    constructor
    · apply Nat.eq_of_testBit_eq
      intro i
      have h2 := congrArg (fun x => Nat.testBit x i) h
      simp only [Nat.testBit_lor] at h2
      simp only [Nat.zero_testBit] at h2 ⊢
      exact (Bool.or_eq_false_iff.mp h2).1
    · apply Nat.eq_of_testBit_eq
      intro i
      have h2 := congrArg (fun x => Nat.testBit x i) h
      simp only [Nat.testBit_lor] at h2
      simp only [Nat.zero_testBit] at h2 ⊢
      exact (Bool.or_eq_false_iff.mp h2).2
  · rintro ⟨rfl, rfl⟩
    rfl

/-- Characters with equal code points are equal. -/
theorem char_toNat_inj {c1 c2 : Char} (h : c1.toNat = c2.toNat) : c1 = c2 := by
  apply Char.eq_of_val_eq
  apply UInt32.eq_of_val_eq
  apply Fin.eq_of_val_eq
  exact h

/-- The accumulated or over the zipped pairs is zero exactly when the
accumulator is zero and every pair has equal components. -/
theorem ctFold_eq_zero (l : List (Char × Char)) :
    ∀ acc : Nat,
      (l.foldl (fun acc p => acc ||| (p.1.toNat ^^^ p.2.toNat)) acc = 0 ↔
        acc = 0 ∧ ∀ p ∈ l, p.1 = p.2) := by
  induction l with
  | nil =>
    intro acc
    simp
  | cons p l ih =>
    intro acc
    simp only [List.foldl_cons, ih, lor_eq_zero_iff, List.mem_cons]
    constructor
    · rintro ⟨⟨h1, h2⟩, h3⟩
      refine ⟨h1, ?_⟩
      intro q hq
      rcases hq with rfl | hq
      · exact char_toNat_inj (Nat.xor_eq_zero.mp h2)
      · exact h3 q hq
    · rintro ⟨h1, h2⟩
      refine ⟨⟨h1, ?_⟩, ?_⟩
      · have hp : p.1 = p.2 := h2 p (Or.inl rfl)
        simp [hp]
      · intro q hq
        exact h2 q (Or.inr hq)

/-- Lists of equal length whose zipped pairs agree componentwise are equal. -/
theorem eq_of_zip_eq (a : List Char) :
    ∀ b : List Char, a.length = b.length → (∀ p ∈ a.zip b, p.1 = p.2) → a = b := by
  induction a with
  | nil =>
    intro b hl _
    cases b with
    | nil => rfl
    | cons y b => simp at hl
  | cons x a ih =>
    intro b hl hp
    cases b with
    | nil => simp at hl
    | cons y b =>
      have hxy : x = y := hp (x, y) (by simp [List.zip_cons_cons])
      have hab : a = b := by
        apply ih b (by simpa using hl)
        intro p hp2
        exact hp p (by simp [List.zip_cons_cons, hp2])
      rw [hxy, hab]

/-- Every pair of a list zipped with itself has equal components. -/
theorem zip_self_fst_eq_snd (a : List Char) : ∀ p ∈ a.zip a, p.1 = p.2 := by
  induction a with
  | nil => simp
  | cons x a ih =>
    intro p hp
    simp only [List.zip_cons_cons, List.mem_cons] at hp
    rcases hp with rfl | hp
    · rfl
    · exact ih p hp

/-- The constant-time comparison agrees with list equality. -/
theorem ctEq_eq_true_iff (a b : List Char) : ctEq a b = true ↔ a = b := by
  unfold ctEq
  simp only [Bool.and_eq_true, beq_iff_eq]
  constructor
  · rintro ⟨hl, hf⟩
    exact eq_of_zip_eq a b hl ((ctFold_eq_zero _ 0).mp hf).2
  · rintro rfl
    refine ⟨rfl, ?_⟩
    exact (ctFold_eq_zero _ 0).mpr ⟨rfl, zip_self_fst_eq_snd a⟩

/-- The signature gate passes exactly when the supplied sig equals the
recomputed expected signature. -/
theorem sigOk_iff (secret : String) (r : AuthRequest) :
    sigOk secret r = true ↔ r.sig = expectedSig secret r := by
  unfold sigOk
  rw [ctEq_eq_true_iff]
  constructor
  · intro h
    exact String.ext h
  · intro h
    rw [h]

/-- The signature gate fails on any signature other than the expected one. -/
theorem sigOk_false_of_ne {secret : String} {r : AuthRequest}
    (h : r.sig ≠ expectedSig secret r) : sigOk secret r = false := by
  cases h2 : sigOk secret r
  · rfl
  · exact absurd ((sigOk_iff secret r).mp h2) h

/-- The signature gate passes on the expected signature. -/
theorem sigOk_of_eq {secret : String} {r : AuthRequest}
    (h : r.sig = expectedSig secret r) : sigOk secret r = true :=
  (sigOk_iff secret r).mpr h

end VoucherAuth

namespace VoucherAuth

/-! ## Branch characterizations of the validator -/

/-- An unknown router identifier is rejected and the state is unchanged. -/
theorem validate_unknown (s : ServerState) (r : AuthRequest)
    (hlook : s.secrets.lookup r.router_id = none) :
    validate s r = (Decision.Reject ErrKind.UnknownRouter, s) := by
  simp [validate, hlook]

/-- With a known router, a signature other than the expected one is rejected
as BadSignature and the state is unchanged. -/
theorem validate_badsig (s : ServerState) (r : AuthRequest) (secret : String)
    (hlook : s.secrets.lookup r.router_id = some secret)
    (hsig : r.sig ≠ expectedSig secret r) :
    validate s r = (Decision.Reject ErrKind.BadSignature, s) := by
  simp [validate, hlook, sigOk_false_of_ne hsig]

/-- With a known router and a correct signature, an out-of-window timestamp is
rejected as StaleTimestamp and the state is unchanged. -/
theorem validate_stale (s : ServerState) (r : AuthRequest) (secret : String)
    (hlook : s.secrets.lookup r.router_id = some secret)
    (hsig : r.sig = expectedSig secret r)
    (hts : ¬ tsOk s r) :
    validate s r = (Decision.Reject ErrKind.StaleTimestamp, s) := by
  simp [validate, hlook, sigOk_of_eq hsig, hts]

/-- With a known router, a correct signature and an in-window timestamp, a
nonce already in the replay cache is rejected as ReplayedNonce and the state
is unchanged. -/
theorem validate_replayed (s : ServerState) (r : AuthRequest) (secret : String)
    (hlook : s.secrets.lookup r.router_id = some secret)
    (hsig : r.sig = expectedSig secret r)
    (hts : tsOk s r)
    (hmem : (r.router_id, r.nonce) ∈ s.nonces) :
    validate s r = (Decision.Reject ErrKind.ReplayedNonce, s) := by
  simp [validate, hlook, sigOk_of_eq hsig, hts, hmem]

/-- With all earlier checks passing, a voucher code absent from the voucher
store is rejected as InvalidVoucher and the state is unchanged. -/
theorem validate_invalid (s : ServerState) (r : AuthRequest) (secret : String)
    (hlook : s.secrets.lookup r.router_id = some secret)
    (hsig : r.sig = expectedSig secret r)
    (hts : tsOk s r)
    (hfresh : (r.router_id, r.nonce) ∉ s.nonces)
    (hv : s.vouchers.lookup r.voucher = none) :
    validate s r = (Decision.Reject ErrKind.InvalidVoucher, s) := by
  simp [validate, hlook, sigOk_of_eq hsig, hts, hfresh, hv]

/-- With all earlier checks passing and an unused voucher, the validator
accepts and commits the nonce insertion and the voucher binding in one step. -/
theorem validate_accept_unused (s : ServerState) (r : AuthRequest) (secret : String) (v : Voucher)
    (hlook : s.secrets.lookup r.router_id = some secret)
    (hsig : r.sig = expectedSig secret r)
    (hts : tsOk s r)
    (hfresh : (r.router_id, r.nonce) ∉ s.nonces)
    (hv : s.vouchers.lookup r.voucher = some v)
    (hunused : v.used = false) :
    validate s r =
      (Decision.Accept,
        { s with nonces := (r.router_id, r.nonce) :: s.nonces,
                 vouchers := (r.voucher, ⟨true, some r.mac⟩) :: s.vouchers }) := by
  simp [validate, hlook, sigOk_of_eq hsig, hts, hfresh, hv, hunused]

/-- With all earlier checks passing and a consumed voucher already bound to
this MAC, the validator accepts and records only the nonce. -/
theorem validate_accept_bound (s : ServerState) (r : AuthRequest) (secret : String)
    (hlook : s.secrets.lookup r.router_id = some secret)
    (hsig : r.sig = expectedSig secret r)
    (hts : tsOk s r)
    (hfresh : (r.router_id, r.nonce) ∉ s.nonces)
    (hv : s.vouchers.lookup r.voucher = some ⟨true, some r.mac⟩) :
    validate s r =
      (Decision.Accept, { s with nonces := (r.router_id, r.nonce) :: s.nonces }) := by
  simp [validate, hlook, sigOk_of_eq hsig, hts, hfresh, hv]

/-- With all earlier checks passing, a consumed voucher bound to a different
MAC is rejected as VoucherAlreadyConsumed and the state is unchanged. -/
theorem validate_consumed (s : ServerState) (r : AuthRequest) (secret : String) (v : Voucher)
    (hlook : s.secrets.lookup r.router_id = some secret)
    (hsig : r.sig = expectedSig secret r)
    (hts : tsOk s r)
    (hfresh : (r.router_id, r.nonce) ∉ s.nonces)
    (hv : s.vouchers.lookup r.voucher = some v)
    (hused : v.used = true)
    (hbound : v.boundMac ≠ some r.mac) :
    validate s r = (Decision.Reject ErrKind.VoucherAlreadyConsumed, s) := by
  simp [validate, hlook, sigOk_of_eq hsig, hts, hfresh, hv, hused, hbound]

end VoucherAuth

namespace VoucherAuth

/-! ## State preservation and inversion -/

/-- A validation step never changes the router secret store. -/
theorem validate_secrets (s : ServerState) (r : AuthRequest) :
    (validate s r).2.secrets = s.secrets := by
  unfold validate
  repeat' split
  all_goals rfl

/-- A validation step never changes the server clock. -/
theorem validate_now (s : ServerState) (r : AuthRequest) :
    (validate s r).2.now = s.now := by
  unfold validate
  repeat' split
  all_goals rfl

/-- A validation step never changes the skew allowance. -/
theorem validate_skew (s : ServerState) (r : AuthRequest) :
    (validate s r).2.skew = s.skew := by
  unfold validate
  repeat' split
  all_goals rfl

/-- A validation step never removes an entry from the nonce cache. -/
theorem validate_nonces_mono (s : ServerState) (r : AuthRequest)
    (x : String × String) (hx : x ∈ s.nonces) : x ∈ (validate s r).2.nonces := by
  unfold validate
  repeat' split
  all_goals simp [List.mem_cons, hx]

/-- An accepted request passed the router, signature and timestamp checks. -/
theorem accept_checks (s : ServerState) (r : AuthRequest)
    (h : (validate s r).1 = Decision.Accept) :
    ∃ secret, s.secrets.lookup r.router_id = some secret ∧
      r.sig = expectedSig secret r ∧ tsOk s r := by
  rcases hl : s.secrets.lookup r.router_id with _ | secret
  · rw [validate_unknown s r hl] at h
    simp at h
  · refine ⟨secret, hl ▸ rfl, ?_⟩
    by_cases hsig : r.sig = expectedSig secret r
    · by_cases hts : tsOk s r
      · exact ⟨hsig, hts⟩
      · rw [validate_stale s r secret hl hsig hts] at h
        simp at h
    · rw [validate_badsig s r secret hl hsig] at h
      simp at h

/-- An accepted request leaves its (router_id, nonce) pair in the cache. -/
theorem mem_nonces_of_accept (s : ServerState) (r : AuthRequest)
    (h : (validate s r).1 = Decision.Accept) :
    (r.router_id, r.nonce) ∈ (validate s r).2.nonces := by
  obtain ⟨secret, hl, hsig, hts⟩ := accept_checks s r h
  by_cases hmem : (r.router_id, r.nonce) ∈ s.nonces
  · exact validate_nonces_mono s r _ hmem
  · rcases hv : s.vouchers.lookup r.voucher with _ | v
    · rw [validate_invalid s r secret hl hsig hts hmem hv] at h
      simp at h
    · by_cases hu : v.used = false
      · rw [validate_accept_unused s r secret v hl hsig hts hmem hv hu]
        simp
      · have hused : v.used = true := by
          cases hvu : v.used
          · exact absurd hvu hu
          · rfl
        by_cases hb : v.boundMac = some r.mac
        · have hv2 : s.vouchers.lookup r.voucher = some ⟨true, some r.mac⟩ := by
            rw [hv, ← hused, ← hb]
          rw [validate_accept_bound s r secret hl hsig hts hmem hv2]
          simp
        · rw [validate_consumed s r secret v hl hsig hts hmem hv hused hb] at h
          simp at h

/-- Processing a request list never changes the router secret store. -/
theorem execList_secrets (rs : List AuthRequest) :
    ∀ s : ServerState, (execList s rs).secrets = s.secrets := by
  induction rs with
  | nil => intro s; rfl
  | cons r rs ih =>
    intro s
    simp [execList, ih, validate_secrets]

/-- Processing a request list never changes the server clock. -/
theorem execList_now (rs : List AuthRequest) :
    ∀ s : ServerState, (execList s rs).now = s.now := by
  induction rs with
  | nil => intro s; rfl
  | cons r rs ih =>
    intro s
    simp [execList, ih, validate_now]

/-- Processing a request list never changes the skew allowance. -/
theorem execList_skew (rs : List AuthRequest) :
    ∀ s : ServerState, (execList s rs).skew = s.skew := by
  induction rs with
  | nil => intro s; rfl
  | cons r rs ih =>
    intro s
    simp [execList, ih, validate_skew]

/-- Processing a request list never removes an entry from the nonce cache. -/
theorem execList_nonces_mono (rs : List AuthRequest) :
    ∀ (s : ServerState) (x : String × String),
      x ∈ s.nonces → x ∈ (execList s rs).nonces := by
  induction rs with
  | nil => intro s x hx; exact hx
  | cons r rs ih =>
    intro s x hx
    exact ih (validate s r).2 x (validate_nonces_mono s r x hx)

/-- The timestamp check only reads the clock and skew fields. -/
theorem tsOk_congr (s s2 : ServerState) (r : AuthRequest)
    (hnow : s2.now = s.now) (hskew : s2.skew = s.skew) : tsOk s r → tsOk s2 r := by
  intro h
  unfold tsOk at h ⊢
  rw [hnow, hskew]
  exact h

end VoucherAuth

namespace VoucherAuth

/-! ## Concrete expected signatures, computed by the embedded HMAC-SHA256 -/

/-- Expected signature of the example request under the example secret. -/
theorem expectedSig_example :
    expectedSig "s3cr3t" (exampleFields exampleDigest) = exampleDigest := by rfl

/-- Expected signature of the altered request under the example secret. -/
theorem expectedSig_altered :
    expectedSig "s3cr3t" (alteredFields exampleDigest) = alteredDigest := by rfl

/-- Expected signature of the racer request under the example secret. -/
theorem expectedSig_racer :
    expectedSig "s3cr3t" (racerFields racerDigest) = racerDigest := by rfl

/-- Expected signature of the same-MAC fresh-nonce request under the example
secret. -/
theorem expectedSig_sameMac :
    expectedSig "s3cr3t" (sameMacFields sameMacDigest) = sameMacDigest := by rfl

/-- Looking up the key just prepended returns the prepended value. -/
theorem lookup_cons_self {β : Type} (k : String) (b : β) (l : List (String × β)) :
    ((k, b) :: l).lookup k = some b := by
  simp [List.lookup]

/-- With a known router, the validator answers BadSignature exactly when the
supplied signature differs from the expected one. -/
theorem badsig_iff (s : ServerState) (r : AuthRequest) (secret : String)
    (hlook : s.secrets.lookup r.router_id = some secret) :
    (validate s r).1 = Decision.Reject ErrKind.BadSignature ↔
      r.sig ≠ expectedSig secret r := by
  constructor
  · intro h hsig
    by_cases hts : tsOk s r
    · by_cases hmem : (r.router_id, r.nonce) ∈ s.nonces
      · rw [validate_replayed s r secret hlook hsig hts hmem] at h
        simp at h
      · rcases hv : s.vouchers.lookup r.voucher with _ | v
        · rw [validate_invalid s r secret hlook hsig hts hmem hv] at h
          simp at h
        · by_cases hu : v.used = false
          · rw [validate_accept_unused s r secret v hlook hsig hts hmem hv hu] at h
            simp at h
          · have hused : v.used = true := by
              cases hvu : v.used
              · exact absurd hvu hu
              · rfl
            by_cases hb : v.boundMac = some r.mac
            · have hv2 : s.vouchers.lookup r.voucher = some ⟨true, some r.mac⟩ := by
                rw [hv, ← hused, ← hb]
              rw [validate_accept_bound s r secret hlook hsig hts hmem hv2] at h
              simp at h
            · rw [validate_consumed s r secret v hlook hsig hts hmem hv hused hb] at h
              simp at h
    · rw [validate_stale s r secret hlook hsig hts] at h
      simp at h
  · intro h
    rw [validate_badsig s r secret hlook h]

end VoucherAuth

namespace VoucherAuth

/-! ## The claims -/

/-- C1: for every AuthRequest the recomputed expected signature is the
lowercase hex HMAC-SHA256, keyed with the router secret, over the pipe-joined
canonical string with the fields substituted verbatim in order; for the
example secret s3cr3t the canonical string of the example request is exactly
the example string of spec section 8, and a request carrying any sig other
than the hex HMAC-SHA256 of that string under that key is rejected as a bad
signature, while the correct sig is not. -/
theorem C1_expected_signature_is_hex_hmac (s : ServerState) (r0 : AuthRequest)
    (secret sigStr : String)
    (hlook : s.secrets.lookup "R1" = some "s3cr3t") :
    expectedSig secret r0 =
      toHex (hmacSha256 (strBytes secret) (strBytes (canonicalString r0))) ∧
    canonicalString (exampleFields sigStr) =
      "R1|aa:bb:cc:dd:ee:ff|AB12CD34|1730000000|random-string" ∧
    ((validate s (exampleFields sigStr)).1 = Decision.Reject ErrKind.BadSignature ↔
      sigStr ≠ toHex (hmacSha256 (strBytes "s3cr3t")
        (strBytes "R1|aa:bb:cc:dd:ee:ff|AB12CD34|1730000000|random-string"))) := by
  have hcanon : canonicalString (exampleFields sigStr) =
      "R1|aa:bb:cc:dd:ee:ff|AB12CD34|1730000000|random-string" := by rfl
  have hexp : expectedSig "s3cr3t" (exampleFields sigStr) =
      toHex (hmacSha256 (strBytes "s3cr3t")
        (strBytes "R1|aa:bb:cc:dd:ee:ff|AB12CD34|1730000000|random-string")) := by
    unfold expectedSig
    rw [hcanon]
  refine ⟨rfl, hcanon, ?_⟩
  have hl2 : s.secrets.lookup (exampleFields sigStr).router_id = some "s3cr3t" := hlook
  rw [badsig_iff s (exampleFields sigStr) "s3cr3t" hl2, ← hexp]
  exact Iff.rfl

/-- Witness for C1 at the example state with the empty signature string. -/
theorem C1_expected_signature_is_hex_hmac_witness :
    (expectedSig "s3cr3t" (exampleFields "") =
      toHex (hmacSha256 (strBytes "s3cr3t") (strBytes (canonicalString (exampleFields ""))))) ∧
    canonicalString (exampleFields "") =
      "R1|aa:bb:cc:dd:ee:ff|AB12CD34|1730000000|random-string" ∧
    ((validate exampleState (exampleFields "")).1 = Decision.Reject ErrKind.BadSignature ↔
      "" ≠ toHex (hmacSha256 (strBytes "s3cr3t")
        (strBytes "R1|aa:bb:cc:dd:ee:ff|AB12CD34|1730000000|random-string"))) :=
  C1_expected_signature_is_hex_hmac exampleState (exampleFields "") "s3cr3t" "" rfl

/-- C2: a request with a known router, correct signature, in-window timestamp,
fresh nonce, and a voucher that is valid and unused or already bound to this
MAC is accepted, and afterwards the voucher is consumed and bound to the
request MAC. -/
theorem C2_valid_request_accepted (s : ServerState) (r : AuthRequest)
    (secret : String) (v : Voucher)
    (hlook : s.secrets.lookup r.router_id = some secret)
    (hsig : r.sig = expectedSig secret r)
    (hts : tsOk s r)
    (hfresh : (r.router_id, r.nonce) ∉ s.nonces)
    (hv : s.vouchers.lookup r.voucher = some v)
    (hok : v.used = false ∨ v.boundMac = some r.mac) :
    (validate s r).1 = Decision.Accept ∧
    (validate s r).2.vouchers.lookup r.voucher = some ⟨true, some r.mac⟩ := by
  by_cases hu : v.used = false
  · rw [validate_accept_unused s r secret v hlook hsig hts hfresh hv hu]
    exact ⟨rfl, lookup_cons_self r.voucher _ s.vouchers⟩
  · have hused : v.used = true := by
      cases hvu : v.used
      · exact absurd hvu hu
      · rfl
    have hb : v.boundMac = some r.mac := by
      rcases hok with h1 | h2
      · exact absurd h1 hu
      · exact h2
    have hv2 : s.vouchers.lookup r.voucher = some ⟨true, some r.mac⟩ := by
      rw [hv, ← hused, ← hb]
    rw [validate_accept_bound s r secret hlook hsig hts hfresh hv2]
    exact ⟨rfl, hv2⟩

/-- Witness for C2 at the example state and the correctly signed example
request. -/
theorem C2_valid_request_accepted_witness :
    (validate exampleState (exampleFields exampleDigest)).1 = Decision.Accept ∧
    (validate exampleState (exampleFields exampleDigest)).2.vouchers.lookup "AB12CD34" =
      some ⟨true, some "aa:bb:cc:dd:ee:ff"⟩ :=
  C2_valid_request_accepted exampleState (exampleFields exampleDigest) "s3cr3t" ⟨false, none⟩
    rfl expectedSig_example.symm (by decide) (by decide) rfl (Or.inl rfl)

/-- C3: along the step relation of the validator, a (router_id, nonce) pair is
accepted at most once — replaying a previously accepted request after any
further processed requests is rejected as ReplayedNonce (the server clock and
skew are unchanged by steps, so the original in-window timestamp is still in
the window). -/
theorem C3_replay_rejected (s : ServerState) (r : AuthRequest) (rs : List AuthRequest)
    (h : (validate s r).1 = Decision.Accept) :
    (validate (execList (validate s r).2 rs) r).1 = Decision.Reject ErrKind.ReplayedNonce := by
  obtain ⟨secret, hl, hsig, hts⟩ := accept_checks s r h
  have hl2 : (execList (validate s r).2 rs).secrets.lookup r.router_id = some secret := by
    rw [execList_secrets, validate_secrets]
    exact hl
  have hts2 : tsOk (execList (validate s r).2 rs) r := by
    apply tsOk_congr s _ r
    · rw [execList_now, validate_now]
    · rw [execList_skew, validate_skew]
    · exact hts
  have hmem : (r.router_id, r.nonce) ∈ (execList (validate s r).2 rs).nonces :=
    execList_nonces_mono rs (validate s r).2 _ (mem_nonces_of_accept s r h)
  rw [validate_replayed _ r secret hl2 hsig hts2 hmem]

/-- Witness for C3: the example request is accepted once and its immediate
replay is rejected as ReplayedNonce. -/
theorem C3_replay_rejected_witness :
    (validate exampleState (exampleFields exampleDigest)).1 = Decision.Accept ∧
    (validate (execList (validate exampleState (exampleFields exampleDigest)).2 [])
        (exampleFields exampleDigest)).1 = Decision.Reject ErrKind.ReplayedNonce := by
  have h1 : (validate exampleState (exampleFields exampleDigest)).1 = Decision.Accept := by
    rw [validate_accept_unused exampleState (exampleFields exampleDigest) "s3cr3t" ⟨false, none⟩
      rfl expectedSig_example.symm (by decide) (by decide) rfl rfl]
  exact ⟨h1, C3_replay_rejected exampleState (exampleFields exampleDigest) [] h1⟩

/-- C4: altering exactly one of mac, voucher, ts or nonce in a previously
valid request while keeping the signature is rejected as BadSignature,
provided the keyed hash of the altered canonical string differs from the
original signature (no HMAC collision between the two canonical strings, a
fact checked concretely in the witness); the two canonical strings themselves
necessarily differ. -/
theorem C4_altered_field_rejected (s : ServerState) (r rA : AuthRequest) (secret : String)
    (hlook : s.secrets.lookup r.router_id = some secret)
    (hvalid : r.sig = expectedSig secret r)
    (halt : alteredOneField r rA)
    (hcoll : expectedSig secret rA ≠ expectedSig secret r) :
    (validate s rA).1 = Decision.Reject ErrKind.BadSignature ∧
    canonicalString rA ≠ canonicalString r := by
  obtain ⟨hrid, hsig, _⟩ := halt
  have hlookA : s.secrets.lookup rA.router_id = some secret := by
    rw [hrid]
    exact hlook
  have hne : rA.sig ≠ expectedSig secret rA := by
    rw [hsig, hvalid]
    intro h2
    exact hcoll h2.symm
  rw [validate_badsig s rA secret hlookA hne]
  refine ⟨rfl, ?_⟩
  intro hc
  apply hcoll
  unfold expectedSig
  rw [hc]

/-- Witness for C4: altering the MAC of the signed example request while
keeping its signature is rejected as BadSignature, and the two expected
signatures indeed differ. -/
theorem C4_altered_field_rejected_witness :
    (validate exampleState (alteredFields exampleDigest)).1 =
      Decision.Reject ErrKind.BadSignature ∧
    canonicalString (alteredFields exampleDigest) ≠
      canonicalString (exampleFields exampleDigest) :=
  C4_altered_field_rejected exampleState (exampleFields exampleDigest)
    (alteredFields exampleDigest) "s3cr3t" rfl expectedSig_example.symm
    ⟨rfl, rfl, Or.inl ⟨by decide, rfl, rfl, rfl⟩⟩
    (by rw [expectedSig_altered, expectedSig_example]; decide)

/-- C5: with a known router and a correct signature for the carried ts, a
timestamp outside the allowed skew window of current server time is rejected
as StaleTimestamp. -/
theorem C5_stale_timestamp_rejected (s : ServerState) (r : AuthRequest) (secret : String)
    (hlook : s.secrets.lookup r.router_id = some secret)
    (hsig : r.sig = expectedSig secret r)
    (hstale : ¬ tsOk s r) :
    (validate s r).1 = Decision.Reject ErrKind.StaleTimestamp := by
  rw [validate_stale s r secret hlook hsig hstale]

/-- Witness for C5: the correctly signed example request against the drifted
clock state is rejected as StaleTimestamp. -/
theorem C5_stale_timestamp_rejected_witness :
    (validate staleState (exampleFields exampleDigest)).1 =
      Decision.Reject ErrKind.StaleTimestamp :=
  C5_stale_timestamp_rejected staleState (exampleFields exampleDigest) "s3cr3t"
    rfl expectedSig_example.symm (by decide)

/-- C6: any two rejected runs produce the same uniform client-visible Reject
response, whichever of the six error kinds occurred in each, while the
internal log of each run retains its specific reason; rejection is a value,
not a failure of the validator. -/
theorem C6_uniform_reject_noninterference (s1 s2 : ServerState) (r1 r2 : AuthRequest)
    (k1 k2 : ErrKind)
    (h1 : (validate s1 r1).1 = Decision.Reject k1)
    (h2 : (validate s2 r2).1 = Decision.Reject k2) :
    clientView (validate s1 r1).1 = clientView (validate s2 r2).1 ∧
    clientView (validate s1 r1).1 = ClientResponse.denied ∧
    logView (validate s1 r1).1 = some k1 ∧
    logView (validate s2 r2).1 = some k2 := by
  rw [h1, h2]
  exact ⟨rfl, rfl, rfl, rfl⟩

/-- Witness for C6: an UnknownRouter rejection and a StaleTimestamp rejection
are indistinguishable on the wire while their logs differ. -/
theorem C6_uniform_reject_noninterference_witness :
    clientView (validate ⟨[], [], [], 0, 0⟩ (exampleFields exampleDigest)).1 =
      clientView (validate staleState (exampleFields exampleDigest)).1 ∧
    clientView (validate ⟨[], [], [], 0, 0⟩ (exampleFields exampleDigest)).1 =
      ClientResponse.denied ∧
    logView (validate ⟨[], [], [], 0, 0⟩ (exampleFields exampleDigest)).1 =
      some ErrKind.UnknownRouter ∧
    logView (validate staleState (exampleFields exampleDigest)).1 =
      some ErrKind.StaleTimestamp := by
  apply C6_uniform_reject_noninterference
  · rw [validate_unknown ⟨[], [], [], 0, 0⟩ (exampleFields exampleDigest) rfl]
  · rw [validate_stale staleState (exampleFields exampleDigest) "s3cr3t"
      rfl expectedSig_example.symm (by decide)]

/-- C7: the validator's signature gate is exactly the explicit constant-time
primitive ctEq applied to the supplied and recomputed signatures, not the
language equality operator, and the cost of ctEq depends only on the lengths
of the two compared strings, never on their contents. -/
theorem C7_constant_time_compare (secret : String) (r : AuthRequest)
    (a b c d : List Char)
    (hac : a.length = c.length) (hbd : b.length = d.length) :
    sigOk secret r = ctEq r.sig.data (expectedSig secret r).data ∧
    ctCost a b = ctCost c d := by
  refine ⟨rfl, ?_⟩
  unfold ctCost
  rw [List.length_zip, List.length_zip, hac, hbd]

/-- Witness for C7 at the example request and two pairs of equal-length
strings with different contents. -/
theorem C7_constant_time_compare_witness :
    (sigOk "s3cr3t" (exampleFields exampleDigest) =
      ctEq (exampleFields exampleDigest).sig.data
        (expectedSig "s3cr3t" (exampleFields exampleDigest)).data) ∧
    ctCost "ab".data "xyz".data = ctCost "cd".data "uvw".data :=
  C7_constant_time_compare "s3cr3t" (exampleFields exampleDigest)
    "ab".data "xyz".data "cd".data "uvw".data rfl rfl

end VoucherAuth

namespace VoucherAuth

/-- C8 counterexample: under the atomic serialization, two identical valid
requests racing on the same (router_id, nonce) pair and the same single-use
voucher do not give one Accept and one VoucherAlreadyConsumed — the loser is
rejected as ReplayedNonce instead; and two requests from the same MAC racing
on the same voucher with distinct fresh nonces are both accepted. -/
theorem C8_race_counterexample :
    (validate exampleState (exampleFields exampleDigest)).1 = Decision.Accept ∧
    (validate (validate exampleState (exampleFields exampleDigest)).2
        (exampleFields exampleDigest)).1 = Decision.Reject ErrKind.ReplayedNonce ∧
    (validate (validate exampleState (exampleFields exampleDigest)).2
        (exampleFields exampleDigest)).1 ≠ Decision.Reject ErrKind.VoucherAlreadyConsumed ∧
    (validate (validate exampleState (exampleFields exampleDigest)).2
        (sameMacFields sameMacDigest)).1 = Decision.Accept := by
  have hrun1 : validate exampleState (exampleFields exampleDigest) =
      (Decision.Accept,
        ⟨[("R1", "s3cr3t")], [("R1", "random-string")],
         ("AB12CD34", ⟨true, some "aa:bb:cc:dd:ee:ff"⟩) :: [("AB12CD34", ⟨false, none⟩)],
         1730000100, 300⟩) := by
    rw [validate_accept_unused exampleState (exampleFields exampleDigest) "s3cr3t" ⟨false, none⟩
      rfl expectedSig_example.symm (by decide) (by decide) rfl rfl]
    rfl
  have hrep : validate (validate exampleState (exampleFields exampleDigest)).2
      (exampleFields exampleDigest) =
      (Decision.Reject ErrKind.ReplayedNonce,
        (validate exampleState (exampleFields exampleDigest)).2) := by
    rw [hrun1]
    exact validate_replayed _ (exampleFields exampleDigest) "s3cr3t"
      rfl expectedSig_example.symm (by decide) (by decide)
  have hbound : (validate (validate exampleState (exampleFields exampleDigest)).2
      (sameMacFields sameMacDigest)).1 = Decision.Accept := by
    rw [hrun1]
    rw [validate_accept_bound
      ⟨[("R1", "s3cr3t")], [("R1", "random-string")],
       ("AB12CD34", ⟨true, some "aa:bb:cc:dd:ee:ff"⟩) :: [("AB12CD34", ⟨false, none⟩)],
       1730000100, 300⟩ (sameMacFields sameMacDigest) "s3cr3t"
      rfl expectedSig_sameMac.symm (by decide) (by decide) rfl]
  refine ⟨by rw [hrun1], by rw [hrep], ?_, hbound⟩
  rw [hrep]
  simp

/-- C8 amended: under the atomic check-and-set serialization, when two
individually valid requests with distinct fresh (router_id, nonce) pairs and
distinct MACs race on the same unused single-use voucher, the request
serialized first is accepted and the other is rejected as
VoucherAlreadyConsumed — exactly one succeeds, in either order, since the
hypotheses are symmetric. -/
theorem C8_voucher_race_exactly_one (s : ServerState) (r1 r2 : AuthRequest)
    (secret1 secret2 : String) (v : Voucher)
    (hl1 : s.secrets.lookup r1.router_id = some secret1)
    (hl2 : s.secrets.lookup r2.router_id = some secret2)
    (hs1 : r1.sig = expectedSig secret1 r1)
    (hs2 : r2.sig = expectedSig secret2 r2)
    (ht1 : tsOk s r1)
    (ht2 : tsOk s r2)
    (hf1 : (r1.router_id, r1.nonce) ∉ s.nonces)
    (hf2 : (r2.router_id, r2.nonce) ∉ s.nonces)
    (hpair : (r2.router_id, r2.nonce) ≠ (r1.router_id, r1.nonce))
    (hsamev : r2.voucher = r1.voucher)
    (hv : s.vouchers.lookup r1.voucher = some v)
    (hunused : v.used = false)
    (hmacs : r2.mac ≠ r1.mac) :
    (validate s r1).1 = Decision.Accept ∧
    (validate (validate s r1).2 r2).1 = Decision.Reject ErrKind.VoucherAlreadyConsumed := by
  have hrun1 := validate_accept_unused s r1 secret1 v hl1 hs1 ht1 hf1 hv hunused
  rw [hrun1]
  refine ⟨rfl, ?_⟩
  have hfresh2 : (r2.router_id, r2.nonce) ∉ ((r1.router_id, r1.nonce) :: s.nonces) := by
    intro hmem
    rcases List.mem_cons.mp hmem with heq | hmem2
    · exact hpair heq
    · exact hf2 hmem2
  have hv2 : ((r1.voucher, (⟨true, some r1.mac⟩ : Voucher)) :: s.vouchers).lookup r2.voucher =
      some ⟨true, some r1.mac⟩ := by
    rw [hsamev]
    exact lookup_cons_self r1.voucher _ s.vouchers
  have hb : (⟨true, some r1.mac⟩ : Voucher).boundMac ≠ some r2.mac := by
    intro h2
    exact hmacs (Option.some.inj h2).symm
  have hts2 : tsOk ⟨s.secrets, (r1.router_id, r1.nonce) :: s.nonces,
      (r1.voucher, ⟨true, some r1.mac⟩) :: s.vouchers, s.now, s.skew⟩ r2 :=
    tsOk_congr s _ r2 rfl rfl ht2
  rw [validate_consumed ⟨s.secrets, (r1.router_id, r1.nonce) :: s.nonces,
      (r1.voucher, ⟨true, some r1.mac⟩) :: s.vouchers, s.now, s.skew⟩ r2 secret2
    ⟨true, some r1.mac⟩ hl2 hs2 hts2 hfresh2 hv2 rfl hb]

/-- Witness for the amended C8: the example request and the racer request
(distinct MAC and nonce, same voucher) — the first is accepted, the second is
rejected as VoucherAlreadyConsumed. -/
theorem C8_voucher_race_exactly_one_witness :
    (validate exampleState (exampleFields exampleDigest)).1 = Decision.Accept ∧
    (validate (validate exampleState (exampleFields exampleDigest)).2
        (racerFields racerDigest)).1 = Decision.Reject ErrKind.VoucherAlreadyConsumed :=
  C8_voucher_race_exactly_one exampleState (exampleFields exampleDigest)
    (racerFields racerDigest) "s3cr3t" "s3cr3t" ⟨false, none⟩
    rfl rfl expectedSig_example.symm expectedSig_racer.symm
    (by decide) (by decide) (by decide) (by decide) (by decide) rfl rfl rfl (by decide)

end VoucherAuth

namespace Sidebar

/-! ## Sidebar invariants -/

/-- A class list contains the class just added. -/
theorem contains_addClass (l : List String) (c : String) :
    containsClass (addClass l c) c = true := by
  unfold containsClass addClass
  split
  · assumption
  · simp

/-- A class list does not contain the class just removed. -/
theorem contains_removeClass (l : List String) (c : String) :
    containsClass (removeClass l c) c = false := by
  unfold containsClass removeClass
  simp

/-- The open operation always yields the open drawer state. -/
theorem openState_open (d : Dom) : openState (open_ d) :=
  ⟨contains_removeClass d.sidebar "-translate-x-full",
   contains_removeClass d.overlay "hidden",
   contains_addClass d.body "overflow-hidden"⟩

/-- The close operation always yields the closed drawer state. -/
theorem closedState_close (d : Dom) : closedState (close d) :=
  ⟨contains_addClass d.sidebar "-translate-x-full",
   contains_addClass d.overlay "hidden",
   contains_removeClass d.body "overflow-hidden"⟩

/-- C9: starting from a consistent drawer state (the three tracked classes
all as in the closed state or all as in the open state), each of the four
handlers — toggle button click, overlay click, any keydown, any sidebar
click — leaves the document in one of the two consistent states: the overlay
is shown iff the sidebar is on-screen iff body scrolling is locked. -/
theorem C9_handlers_preserve_consistency (d : Dom) (key : String) (tgt mob : Bool)
    (h : consistent d) :
    consistent (btnClick d) ∧ consistent (overlayClick d) ∧
    consistent (keydown key d) ∧ consistent (sidebarClick tgt mob d) := by
  refine ⟨?_, ?_, ?_, ?_⟩
  · unfold btnClick
    split
    · exact Or.inr (openState_open d)
    · exact Or.inl (closedState_close d)
  · exact Or.inl (closedState_close d)
  · unfold keydown
    split
    · exact Or.inl (closedState_close d)
    · exact h
  · unfold sidebarClick
    split
    · split
      · exact Or.inl (closedState_close d)
      · exact h
    · exact h

/-- Witness for C9 at the closed drawer state, the Escape key and a mobile
anchor click. -/
theorem C9_handlers_preserve_consistency_witness :
    consistent (btnClick ⟨["-translate-x-full"], ["hidden"], []⟩) ∧
    consistent (overlayClick ⟨["-translate-x-full"], ["hidden"], []⟩) ∧
    consistent (keydown "Escape" ⟨["-translate-x-full"], ["hidden"], []⟩) ∧
    consistent (sidebarClick true true ⟨["-translate-x-full"], ["hidden"], []⟩) :=
  C9_handlers_preserve_consistency ⟨["-translate-x-full"], ["hidden"], []⟩
    "Escape" true true (by decide)

/-- C10: when any of the three queried elements is absent the script returns
before registering any listener and the document state is returned unchanged
— the script is a no-op. -/
theorem C10_missing_element_noop (b o sb : Option Unit) (d : Dom)
    (h : b = none ∨ o = none ∨ sb = none) :
    setup b o sb d = (d, []) := by
  unfold setup
  rcases h with rfl | rfl | rfl <;> simp

/-- Witness for C10 with a missing toggle button. -/
theorem C10_missing_element_noop_witness :
    setup none none (some ()) ⟨["a"], [], ["b"]⟩ = (⟨["a"], [], ["b"]⟩, []) :=
  C10_missing_element_noop none none (some ()) ⟨["a"], [], ["b"]⟩ (Or.inl rfl)

end Sidebar
